import Mathlib

/-!
Verification of the pystanssh connection-lifecycle core (src/pystanssh/base.py
and src/pystanssh/pystan2.py) against its natural-language specification.

The Python code is shallowly embedded: each method of BaseConnection /
PyStan2SSH becomes a Lean function threading an explicit state `Sys` (the
instance attributes `self.client`, `self.stfp_tunnel`, plus an event trace and
a log of printed messages).  The external paramiko / console / json
collaborators are modelled by a deterministic mock `World` that fixes the
outcome of every library call; every library call the code makes is recorded
as an `Event`, so that dial counts, sub-channel-open counts and argument order
of underlying transfer calls are observable.  Python exception propagation is
modelled with `Except Err`: a raised exception carries the mutated state with
it (Python mutations persist across `raise`).
-/

namespace Pystanssh

/-- Errors of the modelled collaborator libraries: `auth` is paramiko's
AuthenticationException (the only one `connect_ssh` catches), `fnf` is
FileNotFoundError (the only one `connect_sftp` catches around chdir), `ssh`
stands for paramiko SSHException-like failures, `other` for anything else. -/
inductive Err where
  | auth
  | fnf
  | ssh
  | other
  deriving DecidableEq, Repr

/-- One observable call into a collaborator library (the mock transport of the
spec's testable properties).  `keyConnect` and `passwordConnect` are network
dial attempts of `SSHClient.connect`; `openSubchannel` is `client.open_sftp()`;
`sftpPut l r`, `sftpPutFo r`, `sftpGet r l` record the underlying SFTP calls
with their arguments in the library's own order (for `sftpGet`, the first
argument is what the library treats as the remote source path, the second the
local destination); `execCmd` is `client.exec_command`; `closeClient` and
`closeTunnel` are the respective `close()` calls. -/
inductive Event where
  | keyConnect (host username : String) (port : Nat)
  | passwordConnect (host username : String)
  | openSubchannel
  | chdirCall (path : String)
  | sftpPut (localpath remotepath : String)
  | sftpPutFo (data : String) (remotepath : String)
  | sftpGet (remotepath localpath : String)
  | execCmd (command : String)
  | closeClient
  | closeTunnel
  deriving DecidableEq, Repr

/-- Deterministic mock of the collaborator libraries: the outcome of each kind
of library call.  `none` / `Except.ok` means the call succeeds; a `some e` /
`Except.error e` means the call raises `e`.  `passwordAnswer` is what
`input('Try password?  [y/n]: ')` returns; successful SFTP transfers return an
abstract attributes record modelled as a `Nat`. -/
structure World where
  keyConnectResult : Option Err
  passwordAnswer : String
  passwordConnectResult : Option Err
  chdirResult : Option Err
  putResult : Except Err Nat
  putfoResult : Except Err Nat
  getResult : Except Err Nat
  execOk : Bool
  deriving Repr

/-- Connection Identity of a BaseConnection instance: `host`, `username`,
`keypath`, `port` (default 22). -/
structure Conn where
  host : String
  username : String
  keypath : String
  port : Nat := 22
  deriving DecidableEq, Repr

/-- The mutable state of one BaseConnection instance together with the
observable history of a run.  `client` models `self.client` (a handle id
allocated when `paramiko.SSHClient()` is constructed — note the object exists
even when its connection attempt failed); `clientLive` is the paramiko-level
fact that the current client object holds a live, authenticated connection;
`tunnel` models `self.stfp_tunnel`; `nextId` is a fresh-handle counter;
`events` the library calls made so far; `logs` the `print`ed messages. -/
structure Sys where
  client : Option Nat := none
  clientLive : Bool := false
  tunnel : Option Nat := none
  nextId : Nat := 0
  events : List Event := []
  logs : List String := []
  deriving DecidableEq, Repr

/-- The freshly constructed instance: no client, no tunnel. -/
def Sys.init : Sys := {}

/-- Record one library call in the event trace. -/
def Sys.push (s : Sys) (e : Event) : Sys := { s with events := s.events ++ [e] }

/-- Record one printed diagnostic message. -/
def Sys.log (s : Sys) (m : String) : Sys := { s with logs := s.logs ++ [m] }

/-- Number of key-based dial attempts in the trace. -/
def keyDials (s : Sys) : Nat :=
  s.events.countP fun e => match e with
    | .keyConnect _ _ _ => true
    | _ => false

/-- Number of password-based dial attempts in the trace. -/
def passwordDials (s : Sys) : Nat :=
  s.events.countP fun e => match e with
    | .passwordConnect _ _ => true
    | _ => false

/-- Number of SFTP sub-channel opens in the trace. -/
def subchannelOpens (s : Sys) : Nat :=
  s.events.countP fun e => match e with
    | .openSubchannel => true
    | _ => false

/-- The message printed when key authentication fails:
`f'Check your SSH key for host {self.host}, username {self.username}.'` -/
def checkKeyMsg (host username : String) : String :=
  s!"Check your SSH key for host {host}, username {username}."

/-- The message printed when a connection already exists (the source's own
spelling): `f'Connection alrady established for {self.host}'` -/
def alreadyConnectedMsg (host : String) : String :=
  s!"Connection alrady established for {host}"

/-- Rendering of a library exception by `print(e)`. -/
def errText : Err → String
  | .auth => "AuthenticationException"
  | .fnf => "FileNotFoundError"
  | .ssh => "SSHException"
  | .other => "Exception"

/-- Embedding of `BaseConnection.connect_ssh` (base.py lines 35-79).  If
`self.client is None`, constructs a client object (allocating its handle id
BEFORE dialling, exactly as the source assigns `self.client` before calling
`connect`), then attempts the key-based connect; on AuthenticationException it
prints the check-key message, asks `Try password?  [y/n]: `, and either makes
one password dial (re-raising its failure) or prints `Connection failed.` and
re-raises the original exception.  If a client already exists it just prints
the already-established message and returns it. -/
def connect_ssh (c : Conn) (w : World) (s : Sys) : Sys × Except Err Nat :=
  match s.client with
  | none =>
    let cid := s.nextId
    let s := { s with client := some cid, clientLive := false, nextId := s.nextId + 1 }
    let s := s.push (.keyConnect c.host c.username c.port)
    match w.keyConnectResult with
    | none => ({ s with clientLive := true }, .ok cid)
    | some Err.auth =>
      let s := s.log (checkKeyMsg c.host c.username)
      if w.passwordAnswer = "y" then
        let s := s.push (.passwordConnect c.host c.username)
        match w.passwordConnectResult with
        | none => ({ s with clientLive := true }, .ok cid)
        | some e => (s, .error e)
      else
        let s := s.log "Connection failed."
        (s, .error Err.auth)
    | some e => (s, .error e)
  | some cid => (s.log (alreadyConnectedMsg c.host), .ok cid)

/-- Embedding of `BaseConnection.connect_sftp` (base.py lines 81-106).
Connects the SSH client first if `self.client is None`; then unconditionally
opens a fresh SFTP sub-channel over it (`self.stfp_tunnel =
self.client.open_sftp()` — there is no already-open check), storing the new
handle; then, if a truthy `host_path` was given, attempts `chdir`, catching
only FileNotFoundError (logged with guidance, tunnel kept). -/
def connect_sftp (c : Conn) (w : World) (s : Sys) (host_path : Option String := none) :
    Sys × Except Err Nat :=
  let step1 : Sys × Except Err Unit :=
    match s.client with
    | none =>
      let (s, r) := connect_ssh c w s
      (s, r.map fun _ => ())
    | some _ => (s, .ok ())
  match step1 with
  | (s, .error e) => (s, .error e)
  | (s, .ok ()) =>
    -- self.client.open_sftp(): raises if the client has no live transport
    if s.clientLive then
      let tid := s.nextId
      let s := { s with tunnel := some tid, nextId := s.nextId + 1 }
      let s := s.push .openSubchannel
      -- if host_path: (Python truthiness: None and '' are falsy)
      match host_path with
      | some p =>
        if p = "" then (s, .ok tid)
        else
          let s := s.push (.chdirCall p)
          match w.chdirResult with
          | none => (s, .ok tid)
          | some Err.fnf =>
            let s := s.log (errText Err.fnf)
            let s := s.log s!"Check {p} to make sure it exists."
            (s, .ok tid)
          | some e => (s, .error e)
      | none => (s, .ok tid)
    else
      (s, .error Err.ssh)

/-- Structured (pathlib-style) POSIX path: whether it is absolute, and its
non-empty components. -/
structure PPath where
  absolute : Bool
  parts : List String
  deriving DecidableEq, Repr

/-- Final path component (`Path.name`), or the empty string when there is
none. -/
def PPath.name (p : PPath) : String := (p.parts.getLast?).getD ""

/-- Index of the last '.' in a list of characters (Python `str.rfind('.')`),
or `none` when absent. -/
def rfindDot : List Char → Option Nat
  | [] => none
  | ch :: rest =>
    match rfindDot rest with
    | some i => some (i + 1)
    | none => if ch = '.' then some 0 else none

/-- `Path.suffix` of a final component, per pathlib: the substring from the
last dot when that dot sits strictly inside the name (`0 < i < len(name)-1`),
otherwise the empty string. -/
def nameSuffix (n : String) : String :=
  match rfindDot n.toList with
  | some i => if 0 < i ∧ i + 1 < n.length then String.mk (n.toList.drop i) else ""
  | none => ""

/-- File-extension component of the path (`Path.suffix`). -/
def PPath.suffix (p : PPath) : String := nameSuffix p.name

/-- Logical parent (`Path.parent`): drops the final component. -/
def PPath.parent (p : PPath) : PPath := { p with parts := p.parts.dropLast }

/-- The `/` operator of pathlib joining a path and a bare file name. -/
def PPath.join (p : PPath) (nm : String) : PPath := { p with parts := p.parts ++ [nm] }

/-- `str()` of a path: components joined by '/', with a leading '/' when
absolute ('.' for the empty relative path, as pathlib renders it). -/
def PPath.render (p : PPath) : String :=
  if p.absolute then "/" ++ String.intercalate "/" p.parts
  else if p.parts = [] then "." else String.intercalate "/" p.parts

/-- Segments of a character list split at '/' (the accumulator holds the
current segment reversed). -/
def splitSlashAux : List Char → List Char → List String
  | [], acc => [String.mk acc.reverse]
  | ch :: rest, acc =>
    if ch = '/' then String.mk acc.reverse :: splitSlashAux rest []
    else splitSlashAux rest (ch :: acc)

/-- `Path(string)` parsing: absolute iff it starts with '/', components are
the non-empty '/'-separated segments. -/
def parsePath (s : String) : PPath :=
  { absolute := match s.toList with
      | '/' :: _ => true
      | _ => false,
    parts := (splitSlashAux s.toList []).filter (fun x => x ≠ "") }

/-- Argument that may be a plain string or a pathlib path (`str or
pathlib.Path` in the source docstrings). -/
inductive PathLike where
  | str (s : String)
  | path (p : PPath)
  deriving DecidableEq, Repr

/-- The `if type(x) is not str: x = str(x)` coercion used by send/get. -/
def pyStr : PathLike → String
  | .str s => s
  | .path p => p.render

/-- Modelled from the spec: `_pathtype_check` is called throughout
pystan2.py but its definition is not among the given sources; spec section 9
describes it as the path normalization utility "asPath(value) -> structured
path" used by every operation needing path joins or suffix checks, coercing a
string into a structured path and leaving structured paths unchanged. -/
def pathtype_check : PathLike → PPath
  | .str s => parsePath s
  | .path p => p

/-- Embedding of `BaseConnection.send` (base.py lines 108-132): opens the SFTP
tunnel if none is stored (errors from that propagate), coerces both paths to
strings, then performs the underlying `put(local_path, host_path)` — whose
failure propagates unchanged to the caller. -/
def send (c : Conn) (w : World) (s : Sys) (local_path host_path : PathLike) :
    Sys × Except Err Nat :=
  let step1 : Sys × Except Err Unit :=
    match s.tunnel with
    | none =>
      let (s, r) := connect_sftp c w s
      (s, r.map fun _ => ())
    | some _ => (s, .ok ())
  match step1 with
  | (s, .error e) => (s, .error e)
  | (s, .ok ()) =>
    let l := pyStr local_path
    let h := pyStr host_path
    let s := s.push (.sftpPut l h)
    (s, w.putResult)

/-- Embedding of `BaseConnection.send_fileobject` (base.py lines 134-154):
opens the SFTP tunnel if none is stored, coerces the host path to a string,
then performs `putfo(file_object, host_path)`; transfer failure propagates.
The file object is modelled by the text it carries. -/
def send_fileobject (c : Conn) (w : World) (s : Sys) (file_object : String)
    (host_path : PathLike) : Sys × Except Err Nat :=
  let step1 : Sys × Except Err Unit :=
    match s.tunnel with
    | none =>
      let (s, r) := connect_sftp c w s
      (s, r.map fun _ => ())
    | some _ => (s, .ok ())
  match step1 with
  | (s, .error e) => (s, .error e)
  | (s, .ok ()) =>
    let h := pyStr host_path
    let s := s.push (.sftpPutFo file_object h)
    (s, w.putfoResult)

/-- Embedding of `BaseConnection.get` (base.py lines 156-180): opens the SFTP
tunnel if none is stored, coerces both paths to strings, then calls
`self.stfp_tunnel.get(local_path, host_path)` — note the source passes
`local_path` in the library's remote-source position and `host_path` in its
local-destination position (the event records the arguments in the library's
order, remote first). -/
def get (c : Conn) (w : World) (s : Sys) (host_path local_path : PathLike) :
    Sys × Except Err Nat :=
  let step1 : Sys × Except Err Unit :=
    match s.tunnel with
    | none =>
      let (s, r) := connect_sftp c w s
      (s, r.map fun _ => ())
    | some _ => (s, .ok ())
  match step1 with
  | (s, .error e) => (s, .error e)
  | (s, .ok ()) =>
    let l := pyStr local_path
    let h := pyStr host_path
    let s := s.push (.sftpGet l h)
    (s, w.getResult)

/-- Embedding of `BaseConnection.close_sftp` (base.py lines 203-215): no-op
with a message when no tunnel is stored; otherwise closes the channel and
clears the handle.  Always returns True. -/
def close_sftp (s : Sys) : Sys × Bool :=
  match s.tunnel with
  | none => (s.log "No SFTP tunnel open.", true)
  | some _ =>
    let s := s.push .closeTunnel
    ({ s with tunnel := none }, true)

/-- Embedding of `BaseConnection.close_ssh` (base.py lines 217-233): no-op
with a message when no client is stored; otherwise closes any stored SFTP
tunnel first (via close_sftp), then closes the client and clears the handle.
Always returns True. -/
def close_ssh (s : Sys) : Sys × Bool :=
  match s.client with
  | none => (s.log "No SSH client connected.", true)
  | some _ =>
    let s := if s.tunnel.isSome then (close_sftp s).1 else s
    let s := s.push .closeClient
    ({ s with client := none, clientLive := false }, true)

/-- Modelled from the spec: JSON serialization is an external "serialization
collaborator" excluded from the core (spec sections 1 and 6: the core only
calls "serialize(mapping) → text"); the structured data is modelled by the
text the collaborator produces for it. -/
def json_dumps (data : String) : String := data

/-- The forced-to-json file name of `upload_data`:
`fname.split('.')[0] + '.json'`. -/
def jsonName (fname : String) : String := ((fname.splitOn ".").headD "") ++ ".json"

/-- The message `f'Uploading {fname_json} to {self.host}...'`. -/
def uploadingDataMsg (fname_json host : String) : String :=
  s!"Uploading {fname_json} to {host}..."

/-- The message `f'Error occured uploading {fname_json}.'` (source spelling). -/
def errorDataMsg (fname_json : String) : String :=
  s!"Error occured uploading {fname_json}."

/-- The message `f'Uploading file {fname} to {self.host}...'`. -/
def uploadingFileMsg (fname host : String) : String :=
  s!"Uploading file {fname} to {host}..."

/-- The message `f'Error occured uploading file {fname}.'` (source spelling). -/
def errorFileMsg (fname : String) : String :=
  s!"Error occured uploading file {fname}."

/-- The destination file name `upload_file` reports: the local file's own name
when the host path has no suffix, else the host path's final component. -/
def resolved_fname (fp hp : PPath) : String :=
  if hp.suffix = "" then fp.name else hp.name

/-- The destination path `upload_file` resolves: the host path with the local
file's name appended when the host path has no suffix, else the host path as
given. -/
def resolved_dest (fp hp : PPath) : PPath :=
  if hp.suffix = "" then hp.join fp.name else hp

/-- The staging destination `run_python_script` resolves for a given local
script path: append the local name when the remote path has no suffix;
otherwise, when the final components differ, replace the remote final
component by the local name; otherwise use the remote path as given. -/
def script_dest (pp lp : PPath) : PPath :=
  if pp.suffix = "" then pp.join lp.name
  else if pp.name ≠ lp.name then pp.parent.join lp.name
  else pp

/-- Embedding of `PyStan2SSH.upload_data` (pystan2.py lines 16-51): forces the
file name to a `.json` suffix, joins it onto the checked host path, serializes
the data, then inside the try block logs the upload message and sends the
payload as a file object; any failure is caught, logged (error message naming
the json file name, then the exception text) and turned into a `none` result.
Finally closes the SSH connection unless `close_connection` is false.  This
operation never raises. -/
def upload_data (c : Conn) (w : World) (s : Sys) (data : String)
    (host_path : PathLike) (fname : String) (close_connection : Bool := true) :
    Sys × Option Nat :=
  let fname_json := jsonName fname
  let hp := pathtype_check host_path
  let host_file_path := hp.join fname_json
  let data_dumps := json_dumps data
  let s := s.log (uploadingDataMsg fname_json c.host)
  let (s, r) := send_fileobject c w s data_dumps (.path host_file_path)
  let (s, send_output) :=
    match r with
    | .ok out => (s.log "Done.", some out)
    | .error e =>
      let s := s.log (errorDataMsg fname_json)
      let s := s.log (errText e)
      (s, (none : Option Nat))
  let s := if close_connection then (close_ssh s).1 else s
  (s, send_output)

/-- Embedding of `PyStan2SSH.upload_file` (pystan2.py lines 53-91): checks
both paths; when the host path has no suffix treats it as a directory and
appends the local file's name, otherwise keeps the given final component as
the destination file name; then inside the try block logs the upload message
and sends the file; any failure is caught, logged (naming the resolved file
name, then the exception text) and turned into a `none` result.  Finally
closes the SSH connection unless `close_connection` is false.  This operation
never raises. -/
def upload_file (c : Conn) (w : World) (s : Sys) (file_path host_path : PathLike)
    (close_connection : Bool := true) : Sys × Option Nat :=
  let hp0 := pathtype_check host_path
  let fp := pathtype_check file_path
  let fname := resolved_fname fp hp0
  let hp := resolved_dest fp hp0
  let s := s.log (uploadingFileMsg fname c.host)
  let (s, r) := send c w s (.path fp) (.path hp)
  let (s, send_output) :=
    match r with
    | .ok out => (s.log "Done.", some out)
    | .error e =>
      let s := s.log (errorFileMsg fname)
      let s := s.log (errText e)
      (s, (none : Option Nat))
  let s := if close_connection then (close_ssh s).1 else s
  (s, send_output)

/-- Embedding of the command section of `PyStan2SSH.run_python_script`
(pystan2.py lines 131-153): assembles the command — interpreter command,
optional option token, the script path's final component, then the
space-joined arguments when given, all joined by single spaces — logs it, and
dispatches it with `exec_command`, returning three stream handles without
closing the connection.  Dispatch failures propagate (the source's
`except: raise` is a bare re-raise). -/
def dispatch_command (c : Conn) (w : World) (s : Sys) (pp : PPath)
    (cmd_opt : Option String) (py_args : Option (List String)) (python_cmd : String) :
    Sys × Except Err (Nat × Nat × Nat) :=
  let command_list := [python_cmd]
  let command_list :=
    match cmd_opt with
    | some o => command_list ++ [o]
    | none => command_list
  let command_list := command_list ++ [pp.name]
  let command_list :=
    match py_args with
    | some args => command_list ++ [String.intercalate " " args]
    | none => command_list
  let command := String.intercalate " " command_list
  let s := s.log s!"Running command on {c.host}..."
  let s := s.log command
  match s.client with
  | none => (s, .error Err.other)
  | some _ =>
    let s := s.push (.execCmd command)
    if s.clientLive && w.execOk then
      let i := s.nextId
      ({ s with nextId := s.nextId + 3 }, .ok (i, i + 1, i + 2))
    else
      (s, .error Err.ssh)

/-- Embedding of the body of `PyStan2SSH.run_python_script` up to the command
section: stage the script when a local path is given (forced local name, no
session close, tunnel-only close), else connect the client (failures
propagate), then assemble and dispatch the command. -/
def run_python_script (c : Conn) (w : World) (s : Sys) (python_path : PathLike)
    (cmd_opt : Option String := none) (py_args : Option (List String) := none)
    (local_path : Option PathLike := none) (python_cmd : String := "python") :
    Sys × Except Err (Nat × Nat × Nat) :=
  let pp := pathtype_check python_path
  match local_path with
  | some lp =>
    let lp := pathtype_check lp
    let pp := script_dest pp lp
    let (s, _) := upload_file c w s (.path lp) (.path pp) false
    let (s, _) := close_sftp s
    dispatch_command c w s pp cmd_opt py_args python_cmd
  | none =>
    match connect_ssh c w s with
    | (s, .error e) => (s, .error e)
    | (s, .ok _) => dispatch_command c w s pp cmd_opt py_args python_cmd

deriving instance DecidableEq for Except

/-- A fixed Connection Identity used for concrete runs. -/
def c0 : Conn := { host := "h", username := "u", keypath := "k" }

/-- A mock world in which every library call succeeds ('n' would be answered
to the password prompt, which is never reached). -/
def w0 : World :=
  { keyConnectResult := none, passwordAnswer := "n", passwordConnectResult := none,
    chdirResult := none, putResult := .ok 7, putfoResult := .ok 8, getResult := .ok 9,
    execOk := true }

/-- The command string as claim C6 describes it: the interpreter command, then
the command-option token if given, then the script name, then the space-joined
arguments if given, all joined by single spaces. -/
def claimCommand (icmd : String) (copt : Option String) (scriptName : String)
    (args : Option (List String)) : String :=
  String.intercalate " "
    ([icmd] ++ copt.toList ++ [scriptName] ++ (args.map (String.intercalate " ")).toList)

/-- The ownership-nesting invariant of the data model: a stored Transfer
Tunnel handle implies a stored parent client handle. -/
def TunnelImpliesClient (s : Sys) : Prop :=
  s.tunnel.isSome = true → s.client.isSome = true

/-- One public operation of the client relating a state to the state it
leaves behind (with any connection identity, library behavior and
arguments). -/
inductive Step : Sys → Sys → Prop where
  | connectSshStep (c w s) : Step s (connect_ssh c w s).1
  | connectSftpStep (c w s hp) : Step s (connect_sftp c w s hp).1
  | sendStep (c w s l h) : Step s (send c w s l h).1
  | sendFoStep (c w s d h) : Step s (send_fileobject c w s d h).1
  | getStep (c w s h l) : Step s (get c w s h l).1
  | closeSftpStep (s) : Step s (close_sftp s).1
  | closeSshStep (s) : Step s (close_ssh s).1
  | uploadDataStep (c w s d hp f k) : Step s (upload_data c w s d hp f k).1
  | uploadFileStep (c w s f hp k) : Step s (upload_file c w s f hp k).1
  | runScriptStep (c w s p co a lp pc) : Step s (run_python_script c w s p co a lp pc).1

/-- States reachable from a freshly constructed instance by public
operations. -/
def Reachable (s : Sys) : Prop := Relation.ReflTransGen Step Sys.init s



/-- Path-typed values pass through the check unchanged. -/
@[simp] theorem pathtype_check_path (p : PPath) : pathtype_check (.path p) = p := rfl

/-- Logging a message changes no instance attribute, only the log. -/
@[simp] theorem Sys.log_client (s : Sys) (m : String) : (s.log m).client = s.client := rfl

/-- Logging preserves the tunnel handle. -/
@[simp] theorem Sys.log_tunnel (s : Sys) (m : String) : (s.log m).tunnel = s.tunnel := rfl

/-- Logging preserves connection liveness. -/
@[simp] theorem Sys.log_clientLive (s : Sys) (m : String) : (s.log m).clientLive = s.clientLive := rfl

/-- Logging preserves the fresh-handle counter. -/
@[simp] theorem Sys.log_nextId (s : Sys) (m : String) : (s.log m).nextId = s.nextId := rfl

/-- Logging preserves the event trace. -/
@[simp] theorem Sys.log_events (s : Sys) (m : String) : (s.log m).events = s.events := rfl

/-- Recording an event preserves the client handle. -/
@[simp] theorem Sys.push_client (s : Sys) (e : Event) : (s.push e).client = s.client := rfl

/-- Recording an event preserves the tunnel handle. -/
@[simp] theorem Sys.push_tunnel (s : Sys) (e : Event) : (s.push e).tunnel = s.tunnel := rfl

/-- Recording an event preserves connection liveness. -/
@[simp] theorem Sys.push_clientLive (s : Sys) (e : Event) : (s.push e).clientLive = s.clientLive := rfl

/-- Recording an event preserves the fresh-handle counter. -/
@[simp] theorem Sys.push_nextId (s : Sys) (e : Event) : (s.push e).nextId = s.nextId := rfl

/-- Recording an event appends it to the trace. -/
@[simp] theorem Sys.push_events (s : Sys) (e : Event) : (s.push e).events = s.events ++ [e] := rfl

/-- Recording an event preserves the log. -/
@[simp] theorem Sys.push_logs (s : Sys) (e : Event) : (s.push e).logs = s.logs := rfl

/-- Logging appends the message to the log. -/
@[simp] theorem Sys.log_logs (s : Sys) (m : String) : (s.log m).logs = s.logs ++ [m] := rfl

/-- Claim C2, counterexample: the claim says a second `ensure_open()` call on
an already-open Transfer Tunnel returns the existing tunnel unchanged and
opens no second sub-channel.  In a run where every library call succeeds, the
first `connect_sftp` returns tunnel handle 1, but the second call opens a
second sub-channel (dial-subchannel count 2) and returns a different handle 2. -/
theorem C2_counterexample :
    subchannelOpens (connect_sftp c0 w0 (connect_sftp c0 w0 Sys.init).1).1 = 2 ∧
    (connect_sftp c0 w0 Sys.init).2 = .ok 1 ∧
    (connect_sftp c0 w0 (connect_sftp c0 w0 Sys.init).1).2 = .ok 2 := by
  decide

/-- Claim C2, amended: calling `ensure_open()` (`connect_sftp`) when a tunnel
is already open over a live session does not reuse it: it opens one more
transfer sub-channel, returns the freshly allocated tunnel handle and stores
it in place of the old one, so two successive calls open two sub-channels. -/
theorem C2_amended (c : Conn) (w : World) (s : Sys) (t cl : Nat)
    (hcl : s.client = some cl) (hlive : s.clientLive = true) (htun : s.tunnel = some t) :
    (connect_sftp c w s).2 = .ok s.nextId ∧
    ((connect_sftp c w s).1).tunnel = some s.nextId ∧
    subchannelOpens (connect_sftp c w s).1 = subchannelOpens s + 1 := by
  simp [connect_sftp, hcl, hlive, subchannelOpens, List.countP_append]

/-- Claim C2, amended, witness: instantiated at the state reached by one
successful `connect_sftp` from a fresh instance. -/
theorem C2_amended_witness :
    (connect_sftp c0 w0 (connect_sftp c0 w0 Sys.init).1).2 =
      .ok ((connect_sftp c0 w0 Sys.init).1).nextId ∧
    ((connect_sftp c0 w0 (connect_sftp c0 w0 Sys.init).1).1).tunnel =
      some ((connect_sftp c0 w0 Sys.init).1).nextId ∧
    subchannelOpens (connect_sftp c0 w0 (connect_sftp c0 w0 Sys.init).1).1 =
      subchannelOpens (connect_sftp c0 w0 Sys.init).1 + 1 :=
  C2_amended c0 w0 ((connect_sftp c0 w0 Sys.init).1) 1 0 (by decide) (by decide) (by decide)

/-- Claim C9: the claim (and the method's own docstring) says
`get(host_path, local_path)` downloads the file at the remote `host_path` to
the local `local_path`, the remote path being the source of the underlying
transfer call.  The code instead calls `self.stfp_tunnel.get(local_path,
host_path)`: at the concrete input host_path = "/remote/data.csv",
local_path = "/local/data.csv", the underlying library call receives
"/local/data.csv" in its remote-source position and "/remote/data.csv" in its
local-destination position — the two arguments are swapped. -/
theorem C9_get_swapped_args :
    ((get c0 w0 (connect_sftp c0 w0 Sys.init).1
        (.str "/remote/data.csv") (.str "/local/data.csv")).1).events =
      [Event.keyConnect "h" "u" 22, Event.openSubchannel,
       Event.sftpGet "/local/data.csv" "/remote/data.csv"] ∧
    (get c0 w0 (connect_sftp c0 w0 Sys.init).1
        (.str "/remote/data.csv") (.str "/local/data.csv")).2 = .ok 9 := by
  decide

/-- On a state holding a client handle, `connect_ssh` only logs the
already-established message and returns the stored handle. -/
theorem connect_ssh_already (c : Conn) (w : World) (s : Sys) (cl : Nat)
    (h : s.client = some cl) :
    connect_ssh c w s = (s.log (alreadyConnectedMsg c.host), .ok cl) := by
  simp [connect_ssh, h]

/-- A successful `connect_ssh` run from a clientless state stores exactly the
freshly allocated handle, marks the connection live, and made exactly one
key-based dial attempt. -/
theorem connect_ssh_ok_state (c : Conn) (w : World) (s : Sys) (cid : Nat)
    (hc : s.client = none) (h : (connect_ssh c w s).2 = .ok cid) :
    cid = s.nextId ∧ ((connect_ssh c w s).1).client = some s.nextId ∧
    ((connect_ssh c w s).1).clientLive = true ∧
    keyDials (connect_ssh c w s).1 = keyDials s + 1 := by
  simp only [connect_ssh, hc] at h ⊢
  rcases hk : w.keyConnectResult with _ | e
  · simp [hk] at h ⊢
    simp [h, keyDials, List.countP_append]
  · rcases e with _ | _ | _ | _ <;> simp [hk] at h ⊢ <;>
      first
      | (by_cases hy : w.passwordAnswer = "y" <;> simp [hy] at h ⊢ <;>
          rcases hp : w.passwordConnectResult with _ | e2 <;> simp [hp] at h ⊢ <;>
          simp [h, keyDials, List.countP_append])
      | skip

/-- Claim C1: on a Remote Client whose first `ensure_connected()` call
succeeded, a second call returns the same live connection handle unchanged,
the state still stores exactly that one handle with a live connection, no new
dial attempt is made (the event trace is unchanged, with exactly one key-based
dial in total), no error is raised, and the only effect is the logged
already-established message. -/
theorem C1_idempotent_connect (c : Conn) (w1 w2 : World) (cid : Nat)
    (h1 : (connect_ssh c w1 Sys.init).2 = .ok cid) :
    (connect_ssh c w2 (connect_ssh c w1 Sys.init).1).2 = .ok cid ∧
    (connect_ssh c w2 (connect_ssh c w1 Sys.init).1).1 =
      ((connect_ssh c w1 Sys.init).1).log (alreadyConnectedMsg c.host) ∧
    ((connect_ssh c w2 (connect_ssh c w1 Sys.init).1).1).client = some cid ∧
    ((connect_ssh c w2 (connect_ssh c w1 Sys.init).1).1).clientLive = true ∧
    ((connect_ssh c w2 (connect_ssh c w1 Sys.init).1).1).events =
      ((connect_ssh c w1 Sys.init).1).events ∧
    keyDials (connect_ssh c w2 (connect_ssh c w1 Sys.init).1).1 = 1 := by
  obtain ⟨hcid, hclient, hlive, hdials⟩ :=
    connect_ssh_ok_state c w1 Sys.init cid rfl h1
  have hcid0 : cid = 0 := hcid
  subst hcid0
  have h2 := connect_ssh_already c w2 ((connect_ssh c w1 Sys.init).1) 0 hclient
  rw [h2]
  refine ⟨rfl, rfl, ?_, ?_, ?_, ?_⟩
  · simp only [Sys.log_client]
    rw [hclient]
    rfl
  · simp [hlive]
  · simp
  · simpa [keyDials] using hdials

/-- Claim C1, witness: instantiated on the all-succeeding mock world. -/
theorem C1_witness :
    (connect_ssh c0 w0 (connect_ssh c0 w0 Sys.init).1).2 = .ok 0 ∧
    (connect_ssh c0 w0 (connect_ssh c0 w0 Sys.init).1).1 =
      ((connect_ssh c0 w0 Sys.init).1).log (alreadyConnectedMsg c0.host) ∧
    ((connect_ssh c0 w0 (connect_ssh c0 w0 Sys.init).1).1).client = some 0 ∧
    ((connect_ssh c0 w0 (connect_ssh c0 w0 Sys.init).1).1).clientLive = true ∧
    ((connect_ssh c0 w0 (connect_ssh c0 w0 Sys.init).1).1).events =
      ((connect_ssh c0 w0 Sys.init).1).events ∧
    keyDials (connect_ssh c0 w0 (connect_ssh c0 w0 Sys.init).1).1 = 1 :=
  C1_idempotent_connect c0 w0 w0 0 (by decide)

/-- Claim C3: in a run of `ensure_connected()` from a clientless state where
key-based authentication fails, if the interactive password retry is declined
the call raises the authentication error, makes no password-based dial, and
its log identifies host and username via the check-key message; if the retry
is accepted, exactly one password-based dial is made. -/
theorem C3_auth_fallback (c : Conn) (w : World) (s : Sys)
    (hclient : s.client = none) (hauth : w.keyConnectResult = some Err.auth) :
    (w.passwordAnswer ≠ "y" →
      (connect_ssh c w s).2 = .error Err.auth ∧
      passwordDials (connect_ssh c w s).1 = passwordDials s ∧
      checkKeyMsg c.host c.username ∈ ((connect_ssh c w s).1).logs) ∧
    (w.passwordAnswer = "y" →
      passwordDials (connect_ssh c w s).1 = passwordDials s + 1) := by
  constructor
  · intro hy
    simp [connect_ssh, hclient, hauth, hy, passwordDials, List.countP_append]
  · intro hy
    rcases hp : w.passwordConnectResult with _ | e <;>
      simp [connect_ssh, hclient, hauth, hy, hp, passwordDials, List.countP_append]

/-- Claim C3, witness: decline path on a key-auth-failing world with answer
"n", and accept path on the same world with answer "y". -/
theorem C3_witness :
    ((connect_ssh c0 { w0 with keyConnectResult := some Err.auth } Sys.init).2 =
        .error Err.auth ∧
      passwordDials (connect_ssh c0 { w0 with keyConnectResult := some Err.auth } Sys.init).1 =
        passwordDials Sys.init ∧
      checkKeyMsg c0.host c0.username ∈
        ((connect_ssh c0 { w0 with keyConnectResult := some Err.auth } Sys.init).1).logs) ∧
    passwordDials
        (connect_ssh c0 { w0 with keyConnectResult := some Err.auth, passwordAnswer := "y" }
          Sys.init).1 = passwordDials Sys.init + 1 :=
  ⟨(C3_auth_fallback c0 { w0 with keyConnectResult := some Err.auth } Sys.init rfl rfl).1
      (by decide),
   (C3_auth_fallback c0 { w0 with keyConnectResult := some Err.auth, passwordAnswer := "y" }
      Sys.init rfl rfl).2 rfl⟩

/-- Claim C10: when `ensure_connected()` fails on the authentication path
(key auth fails and the password fallback is declined or itself fails), the
client handle — assigned before the dial — is left stored while no live
connection exists; every later `ensure_connected()` call therefore takes the
already-established branch: it logs the already-established message and
returns the dead handle without any new connection attempt. -/
theorem C10_dead_handle (c : Conn) (w1 w2 : World) (e : Err)
    (hauth : w1.keyConnectResult = some Err.auth)
    (hfail : (connect_ssh c w1 Sys.init).2 = .error e) :
    ((connect_ssh c w1 Sys.init).1).client = some 0 ∧
    ((connect_ssh c w1 Sys.init).1).clientLive = false ∧
    connect_ssh c w2 (connect_ssh c w1 Sys.init).1 =
      (((connect_ssh c w1 Sys.init).1).log (alreadyConnectedMsg c.host), .ok 0) := by
  have hstate : ((connect_ssh c w1 Sys.init).1).client = some 0 ∧
      ((connect_ssh c w1 Sys.init).1).clientLive = false := by
    simp only [connect_ssh, Sys.init] at hfail ⊢
    by_cases hy : w1.passwordAnswer = "y"
    · rcases hp : w1.passwordConnectResult with _ | e2
      · simp [hauth, hy, hp] at hfail
      · simp [hauth, hy, hp]
    · simp [hauth, hy]
  exact ⟨hstate.1, hstate.2,
    connect_ssh_already c w2 ((connect_ssh c w1 Sys.init).1) 0 hstate.1⟩

/-- Claim C10, witness: key auth fails and the retry is declined. -/
theorem C10_witness :
    ((connect_ssh c0 { w0 with keyConnectResult := some Err.auth } Sys.init).1).client =
      some 0 ∧
    ((connect_ssh c0 { w0 with keyConnectResult := some Err.auth } Sys.init).1).clientLive =
      false ∧
    connect_ssh c0 w0 (connect_ssh c0 { w0 with keyConnectResult := some Err.auth } Sys.init).1 =
      (((connect_ssh c0 { w0 with keyConnectResult := some Err.auth } Sys.init).1).log
          (alreadyConnectedMsg c0.host), .ok 0) :=
  C10_dead_handle c0 { w0 with keyConnectResult := some Err.auth } w0 Err.auth rfl (by decide)

/-- Claim C4: with a live session and open tunnel, when the underlying
transfer call fails, `upload_data` and `upload_file` (with the default
`close_connection = true`) never raise — their embedding is total by
construction — and each returns a null result, logs the upload message naming
the (resolved) file name and the host plus an error message naming the file
name, and still closes the Transport Session (client and tunnel handles both
cleared) before returning. -/
theorem C4_swallowed_transfer_failure (c : Conn) (w : World) (s : Sys) (cl t : Nat)
    (e1 e2 : Err) (data fname : String) (hp lp rp : PathLike)
    (hcl : s.client = some cl) (htun : s.tunnel = some t)
    (hput : w.putResult = .error e1) (hputfo : w.putfoResult = .error e2) :
    ((upload_data c w s data hp fname).2 = none ∧
      ((upload_data c w s data hp fname).1).client = none ∧
      ((upload_data c w s data hp fname).1).tunnel = none ∧
      uploadingDataMsg (jsonName fname) c.host ∈ ((upload_data c w s data hp fname).1).logs ∧
      errorDataMsg (jsonName fname) ∈ ((upload_data c w s data hp fname).1).logs) ∧
    ((upload_file c w s lp rp).2 = none ∧
      ((upload_file c w s lp rp).1).client = none ∧
      ((upload_file c w s lp rp).1).tunnel = none ∧
      uploadingFileMsg (resolved_fname (pathtype_check lp) (pathtype_check rp)) c.host ∈
        ((upload_file c w s lp rp).1).logs ∧
      errorFileMsg (resolved_fname (pathtype_check lp) (pathtype_check rp)) ∈
        ((upload_file c w s lp rp).1).logs) := by
  constructor
  · simp [upload_data, send_fileobject, htun, hputfo, hcl, close_ssh, close_sftp]
  · simp [upload_file, send, htun, hput, hcl, close_ssh, close_sftp]

/-- Claim C4, witness: concrete failing transfers from a connected state with
an open tunnel. -/
theorem C4_witness :
    ((upload_data c0 { w0 with putResult := .error Err.ssh, putfoResult := .error Err.ssh }
        (connect_sftp c0 w0 Sys.init).1 "d" (.str "/tmp") "out.txt").2 = none ∧
      ((upload_data c0 { w0 with putResult := .error Err.ssh, putfoResult := .error Err.ssh }
          (connect_sftp c0 w0 Sys.init).1 "d" (.str "/tmp") "out.txt").1).client = none ∧
      ((upload_data c0 { w0 with putResult := .error Err.ssh, putfoResult := .error Err.ssh }
          (connect_sftp c0 w0 Sys.init).1 "d" (.str "/tmp") "out.txt").1).tunnel = none ∧
      uploadingDataMsg (jsonName "out.txt") c0.host ∈
        ((upload_data c0 { w0 with putResult := .error Err.ssh, putfoResult := .error Err.ssh }
            (connect_sftp c0 w0 Sys.init).1 "d" (.str "/tmp") "out.txt").1).logs ∧
      errorDataMsg (jsonName "out.txt") ∈
        ((upload_data c0 { w0 with putResult := .error Err.ssh, putfoResult := .error Err.ssh }
            (connect_sftp c0 w0 Sys.init).1 "d" (.str "/tmp") "out.txt").1).logs) ∧
    ((upload_file c0 { w0 with putResult := .error Err.ssh, putfoResult := .error Err.ssh }
        (connect_sftp c0 w0 Sys.init).1 (.str "/home/u/run.py") (.str "/remote/dir")).2 = none ∧
      ((upload_file c0 { w0 with putResult := .error Err.ssh, putfoResult := .error Err.ssh }
          (connect_sftp c0 w0 Sys.init).1 (.str "/home/u/run.py") (.str "/remote/dir")).1).client =
        none ∧
      ((upload_file c0 { w0 with putResult := .error Err.ssh, putfoResult := .error Err.ssh }
          (connect_sftp c0 w0 Sys.init).1 (.str "/home/u/run.py") (.str "/remote/dir")).1).tunnel =
        none ∧
      uploadingFileMsg
          (resolved_fname (pathtype_check (.str "/home/u/run.py"))
            (pathtype_check (.str "/remote/dir"))) c0.host ∈
        ((upload_file c0 { w0 with putResult := .error Err.ssh, putfoResult := .error Err.ssh }
            (connect_sftp c0 w0 Sys.init).1 (.str "/home/u/run.py") (.str "/remote/dir")).1).logs ∧
      errorFileMsg
          (resolved_fname (pathtype_check (.str "/home/u/run.py"))
            (pathtype_check (.str "/remote/dir"))) ∈
        ((upload_file c0 { w0 with putResult := .error Err.ssh, putfoResult := .error Err.ssh }
            (connect_sftp c0 w0 Sys.init).1 (.str "/home/u/run.py") (.str "/remote/dir")).1).logs) :=
  C4_swallowed_transfer_failure c0
    { w0 with putResult := .error Err.ssh, putfoResult := .error Err.ssh }
    (connect_sftp c0 w0 Sys.init).1 0 1 Err.ssh Err.ssh "d" "out.txt" (PathLike.str "/tmp")
    (PathLike.str "/home/u/run.py") (PathLike.str "/remote/dir") (by decide) (by decide) rfl rfl

/-- Claim C6: on a live session, `run_python_script` without a local path
dispatches exactly the command built from the interpreter command, the
optional command-option token, the script path's final component and the
space-joined arguments if given, returns three distinct consecutive stream
handles, and leaves the session connected and live. -/
theorem C6_command_assembly (c : Conn) (w : World) (s : Sys) (cl : Nat)
    (rpath : PathLike) (copt : Option String) (args : Option (List String)) (icmd : String)
    (hcl : s.client = some cl) (hlive : s.clientLive = true) (hexec : w.execOk = true) :
    (run_python_script c w s rpath copt args none icmd).2 =
      .ok (s.nextId, s.nextId + 1, s.nextId + 2) ∧
    ((run_python_script c w s rpath copt args none icmd).1).events =
      s.events ++ [Event.execCmd (claimCommand icmd copt (pathtype_check rpath).name args)] ∧
    ((run_python_script c w s rpath copt args none icmd).1).client = some cl ∧
    ((run_python_script c w s rpath copt args none icmd).1).clientLive = true := by
  rcases copt with _ | o <;> rcases args with _ | a <;>
    simp [run_python_script, dispatch_command, connect_ssh, hcl, hlive, hexec, claimCommand,
      Except.map]

/-- Claim C6, witness: the spec's concrete example dispatches exactly
`python3 -u run.py --x 1`. -/
theorem C6_witness :
    (run_python_script c0 w0 (connect_ssh c0 w0 Sys.init).1 (.str "/r/run.py")
        (some "-u") (some ["--x", "1"]) none "python3").2 = .ok (1, 2, 3) ∧
    Event.execCmd "python3 -u run.py --x 1" ∈
      ((run_python_script c0 w0 (connect_ssh c0 w0 Sys.init).1 (.str "/r/run.py")
          (some "-u") (some ["--x", "1"]) none "python3").1).events ∧
    ((run_python_script c0 w0 (connect_ssh c0 w0 Sys.init).1 (.str "/r/run.py")
        (some "-u") (some ["--x", "1"]) none "python3").1).client = some 0 := by
  have h := C6_command_assembly c0 w0 ((connect_ssh c0 w0 Sys.init).1) 0
    (PathLike.str "/r/run.py") (some "-u") (some ["--x", "1"]) "python3"
    (by decide) (by decide) rfl
  refine ⟨by rw [h.1]; rfl, ?_, by rw [h.2.2.1]⟩
  rw [h.2.1]
  have hc : claimCommand "python3" (some "-u")
      (pathtype_check (PathLike.str "/r/run.py")).name (some ["--x", "1"]) =
      "python3 -u run.py --x 1" := by decide
  rw [hc]
  simp

/-- Claim C7: on a live session with an open tunnel, the destination path that
`upload_file` hands to the underlying transfer call is the checked remote
path with the local file's own name appended when the remote path has no
file-extension component, and is exactly the given remote path (final
component preserved) when it has one. -/
theorem C7_dest_resolution (c : Conn) (w : World) (s : Sys) (cl t : Nat)
    (local_path remote_path : PathLike) (keep : Bool)
    (hcl : s.client = some cl) (htun : s.tunnel = some t) :
    Event.sftpPut (pathtype_check local_path).render
        (resolved_dest (pathtype_check local_path) (pathtype_check remote_path)).render ∈
      ((upload_file c w s local_path remote_path keep).1).events ∧
    ((pathtype_check remote_path).suffix = "" →
      resolved_dest (pathtype_check local_path) (pathtype_check remote_path) =
        (pathtype_check remote_path).join (pathtype_check local_path).name) ∧
    ((pathtype_check remote_path).suffix ≠ "" →
      resolved_dest (pathtype_check local_path) (pathtype_check remote_path) =
        pathtype_check remote_path) := by
  refine ⟨?_, ?_, ?_⟩
  · cases hq : w.putResult <;> cases keep <;>
      simp [upload_file, send, htun, hcl, hq, close_ssh, close_sftp, pyStr]
  · intro hs
    simp [resolved_dest, hs]
  · intro hs
    simp [resolved_dest, hs]

/-- Claim C7, witness: at the spec's inputs, `/remote/dir` (no suffix)
resolves to `/remote/dir/run.py`, while `/remote/dir/other.py` is preserved. -/
theorem C7_witness :
    (Event.sftpPut "/home/u/run.py" "/remote/dir/run.py" ∈
      ((upload_file c0 w0 (connect_sftp c0 w0 Sys.init).1
          (.str "/home/u/run.py") (.str "/remote/dir") true).1).events) ∧
    (Event.sftpPut "/home/u/run.py" "/remote/dir/other.py" ∈
      ((upload_file c0 w0 (connect_sftp c0 w0 Sys.init).1
          (.str "/home/u/run.py") (.str "/remote/dir/other.py") true).1).events) := by
  have h1 := (C7_dest_resolution c0 w0 ((connect_sftp c0 w0 Sys.init).1) 0 1
    (PathLike.str "/home/u/run.py") (PathLike.str "/remote/dir") true
    (by decide) (by decide)).1
  have h2 := (C7_dest_resolution c0 w0 ((connect_sftp c0 w0 Sys.init).1) 0 1
    (PathLike.str "/home/u/run.py") (PathLike.str "/remote/dir/other.py") true
    (by decide) (by decide)).1
  have e1 : (pathtype_check (PathLike.str "/home/u/run.py")).render = "/home/u/run.py" := by
    decide
  have e2 : (resolved_dest (pathtype_check (PathLike.str "/home/u/run.py"))
      (pathtype_check (PathLike.str "/remote/dir"))).render = "/remote/dir/run.py" := by
    decide
  have e3 : (resolved_dest (pathtype_check (PathLike.str "/home/u/run.py"))
      (pathtype_check (PathLike.str "/remote/dir/other.py"))).render = "/remote/dir/other.py" := by
    decide
  rw [e1, e2] at h1
  rw [e1, e3] at h2
  exact ⟨h1, h2⟩

/-- Claim C8, counterexample: the claim says the staging destination follows
the same directory-or-file logic as `upload_file`, preserving the given
filename when the remote path has an extension component.  At remote path
"/r/other.py" (has extension, name differing from the local script
"/h/run.py"), the script is staged to "/r/run.py" — the local name replaces
the given one — and no upload to the claimed destination "/r/other.py"
happens. -/
theorem C8_counterexample :
    Event.sftpPut "/h/run.py" "/r/run.py" ∈
      ((run_python_script c0 w0 Sys.init (.str "/r/other.py") none none
          (some (.str "/h/run.py")) "python").1).events ∧
    Event.sftpPut "/h/run.py" "/r/other.py" ∉
      ((run_python_script c0 w0 Sys.init (.str "/r/other.py") none none
          (some (.str "/h/run.py")) "python").1).events := by
  decide

/-- Claim C8, amended: with a live session, `run_python_script` with a local
script path stages the script to the destination resolved as: the remote path
with the local file's name appended when the remote path has no extension
component; the remote path's parent joined with the local file's name when it
has an extension component whose final component differs from the local
file's name (the local name is forced, not the given one); the remote path
unchanged when the names agree.  (Stated for a local script whose resolved
destination has an extension component, as any `.py` script does — otherwise
`upload_file` would apply its directory logic to the resolved path once
more.)  The upload is performed without closing the session and afterwards
only the Transfer Tunnel is closed: the final state has no tunnel but still
the same live client. -/
theorem C8_amended (c : Conn) (w : World) (s : Sys) (cl : Nat)
    (rpath lpath : PathLike) (copt : Option String) (args : Option (List String)) (icmd : String)
    (hcl : s.client = some cl) (hlive : s.clientLive = true)
    (hsuf : (script_dest (pathtype_check rpath) (pathtype_check lpath)).suffix ≠ "") :
    Event.sftpPut (pathtype_check lpath).render
        (script_dest (pathtype_check rpath) (pathtype_check lpath)).render ∈
      ((run_python_script c w s rpath copt args (some lpath) icmd).1).events ∧
    Event.closeTunnel ∈ ((run_python_script c w s rpath copt args (some lpath) icmd).1).events ∧
    ((run_python_script c w s rpath copt args (some lpath) icmd).1).tunnel = none ∧
    ((run_python_script c w s rpath copt args (some lpath) icmd).1).client = some cl ∧
    ((run_python_script c w s rpath copt args (some lpath) icmd).1).clientLive = true := by
  rcases htun : s.tunnel with _ | t <;> cases hq : w.putResult <;> cases hex : w.execOk <;>
    simp [run_python_script, dispatch_command, upload_file, send, connect_sftp, close_sftp,
      close_ssh, hcl, hlive, htun, hq, hex, pyStr, Except.map, resolved_dest, hsuf]

/-- Claim C8, amended, witness: staging "/h/run.py" at remote "/r/other.py"
from a connected state uploads to "/r/run.py", closes only the tunnel and
keeps the client. -/
theorem C8_amended_witness :
    Event.sftpPut "/h/run.py" "/r/run.py" ∈
      ((run_python_script c0 w0 (connect_ssh c0 w0 Sys.init).1 (.str "/r/other.py") none none
          (some (.str "/h/run.py")) "python").1).events ∧
    Event.closeTunnel ∈
      ((run_python_script c0 w0 (connect_ssh c0 w0 Sys.init).1 (.str "/r/other.py") none none
          (some (.str "/h/run.py")) "python").1).events ∧
    ((run_python_script c0 w0 (connect_ssh c0 w0 Sys.init).1 (.str "/r/other.py") none none
        (some (.str "/h/run.py")) "python").1).tunnel = none ∧
    ((run_python_script c0 w0 (connect_ssh c0 w0 Sys.init).1 (.str "/r/other.py") none none
        (some (.str "/h/run.py")) "python").1).client = some 0 ∧
    ((run_python_script c0 w0 (connect_ssh c0 w0 Sys.init).1 (.str "/r/other.py") none none
        (some (.str "/h/run.py")) "python").1).clientLive = true := by
  have h := C8_amended c0 w0 ((connect_ssh c0 w0 Sys.init).1) 0
    (PathLike.str "/r/other.py") (PathLike.str "/h/run.py") none none "python"
    (by decide) rfl (by decide)
  have e1 : (pathtype_check (PathLike.str "/h/run.py")).render = "/h/run.py" := by decide
  have e2 : (script_dest (pathtype_check (PathLike.str "/r/other.py"))
      (pathtype_check (PathLike.str "/h/run.py"))).render = "/r/run.py" := by decide
  rw [e1, e2] at h
  exact h

/-- The invariant only reads the two handles, which logging preserves. -/
theorem TIC_log (s : Sys) (m : String) :
    TunnelImpliesClient (s.log m) ↔ TunnelImpliesClient s := by
  simp [TunnelImpliesClient]

/-- The invariant only reads the two handles, which event recording
preserves. -/
theorem TIC_push (s : Sys) (e : Event) :
    TunnelImpliesClient (s.push e) ↔ TunnelImpliesClient s := by
  simp [TunnelImpliesClient]

/-- After `connect_ssh` a client handle is always stored (the source assigns
`self.client` before dialling, and the already-connected branch keeps it). -/
theorem connect_ssh_client_isSome (c : Conn) (w : World) (s : Sys) :
    ((connect_ssh c w s).1).client.isSome = true := by
  rcases hc : s.client with _ | cl
  · rcases hk : w.keyConnectResult with _ | e
    · simp [connect_ssh, hc, hk]
    · rcases e with _ | _ | _ | _ <;>
        by_cases hy : w.passwordAnswer = "y" <;>
        rcases hp : w.passwordConnectResult with _ | e2 <;>
        simp [connect_ssh, hc, hk, hy, hp]
  · simp [connect_ssh, hc]

/-- `connect_ssh` never touches the tunnel handle. -/
theorem connect_ssh_tunnel (c : Conn) (w : World) (s : Sys) :
    ((connect_ssh c w s).1).tunnel = s.tunnel := by
  rcases hc : s.client with _ | cl
  · rcases hk : w.keyConnectResult with _ | e
    · simp [connect_ssh, hc, hk]
    · rcases e with _ | _ | _ | _ <;>
        by_cases hy : w.passwordAnswer = "y" <;>
        rcases hp : w.passwordConnectResult with _ | e2 <;>
        simp [connect_ssh, hc, hk, hy, hp]
  · simp [connect_ssh, hc]

/-- After `connect_sftp` a client handle is always stored. -/
theorem connect_sftp_client_isSome (c : Conn) (w : World) (s : Sys) (hp : Option String) :
    ((connect_sftp c w s hp).1).client.isSome = true := by
  rcases hc : s.client with _ | cl
  · have h1 := connect_ssh_client_isSome c w s
    rcases hres : connect_ssh c w s with ⟨s1, r1⟩
    rw [hres] at h1
    rcases r1 with e | v
    · simp [connect_sftp, hc, hres, Except.map, h1]
    · by_cases hl : s1.clientLive = true
      · rcases hp with _ | p
        · simp [connect_sftp, hc, hres, Except.map, hl, h1]
        · by_cases hpe : p = ""
          · simp [connect_sftp, hc, hres, Except.map, hl, hpe, h1]
          · rcases hcd : w.chdirResult with _ | e2
            · simp [connect_sftp, hc, hres, Except.map, hl, hpe, hcd, h1]
            · rcases e2 <;> simp [connect_sftp, hc, hres, Except.map, hl, hpe, hcd, h1]
      · simp [connect_sftp, hc, hres, Except.map, hl, h1]
  · by_cases hl : s.clientLive = true
    · rcases hp with _ | p
      · simp [connect_sftp, hc, hl]
      · by_cases hpe : p = ""
        · simp [connect_sftp, hc, hl, hpe]
        · rcases hcd : w.chdirResult with _ | e2
          · simp [connect_sftp, hc, hl, hpe, hcd]
          · rcases e2 <;> simp [connect_sftp, hc, hl, hpe, hcd]
    · simp [connect_sftp, hc, hl]

/-- `connect_ssh` preserves the nesting invariant (it stores a client). -/
theorem connect_ssh_inv (c : Conn) (w : World) (s : Sys) :
    TunnelImpliesClient (connect_ssh c w s).1 := fun _ =>
  connect_ssh_client_isSome c w s

/-- `connect_sftp` preserves the nesting invariant (it stores a client). -/
theorem connect_sftp_inv (c : Conn) (w : World) (s : Sys) (hp : Option String) :
    TunnelImpliesClient (connect_sftp c w s hp).1 := fun _ =>
  connect_sftp_client_isSome c w s hp

/-- `send` preserves the nesting invariant. -/
theorem send_inv (c : Conn) (w : World) (s : Sys) (l h : PathLike)
    (hInv : TunnelImpliesClient s) : TunnelImpliesClient (send c w s l h).1 := by
  rcases ht : s.tunnel with _ | t
  · have h3 := connect_sftp_client_isSome c w s none
    rcases hres : connect_sftp c w s none with ⟨s1, r1⟩
    rw [hres] at h3
    rcases r1 with e | v <;>
      simp [send, TunnelImpliesClient, ht, hres, h3, Except.map]
  · have hc := hInv (by simp [ht])
    simp [send, TunnelImpliesClient, ht, hc]

/-- `send_fileobject` preserves the nesting invariant. -/
theorem send_fileobject_inv (c : Conn) (w : World) (s : Sys) (d : String) (h : PathLike)
    (hInv : TunnelImpliesClient s) : TunnelImpliesClient (send_fileobject c w s d h).1 := by
  rcases ht : s.tunnel with _ | t
  · have h3 := connect_sftp_client_isSome c w s none
    rcases hres : connect_sftp c w s none with ⟨s1, r1⟩
    rw [hres] at h3
    rcases r1 with e | v <;>
      simp [send_fileobject, TunnelImpliesClient, ht, hres, h3, Except.map]
  · have hc := hInv (by simp [ht])
    simp [send_fileobject, TunnelImpliesClient, ht, hc]

/-- `get` preserves the nesting invariant. -/
theorem get_inv (c : Conn) (w : World) (s : Sys) (h l : PathLike)
    (hInv : TunnelImpliesClient s) : TunnelImpliesClient (get c w s h l).1 := by
  rcases ht : s.tunnel with _ | t
  · have h3 := connect_sftp_client_isSome c w s none
    rcases hres : connect_sftp c w s none with ⟨s1, r1⟩
    rw [hres] at h3
    rcases r1 with e | v <;>
      simp [get, TunnelImpliesClient, ht, hres, h3, Except.map]
  · have hc := hInv (by simp [ht])
    simp [get, TunnelImpliesClient, ht, hc]

/-- `close_sftp` preserves the nesting invariant. -/
theorem close_sftp_inv (s : Sys) (hInv : TunnelImpliesClient s) :
    TunnelImpliesClient (close_sftp s).1 := by
  rcases ht : s.tunnel with _ | t
  · simpa [close_sftp, ht, TIC_log] using hInv
  · simp [close_sftp, ht, TunnelImpliesClient]

/-- `close_ssh` preserves the nesting invariant. -/
theorem close_ssh_inv (s : Sys) (hInv : TunnelImpliesClient s) :
    TunnelImpliesClient (close_ssh s).1 := by
  rcases hc : s.client with _ | cl
  · simpa [close_ssh, hc, TIC_log] using hInv
  · rcases ht : s.tunnel with _ | t <;>
      simp [close_ssh, close_sftp, hc, ht, TunnelImpliesClient]

/-- `upload_data` preserves the nesting invariant. -/
theorem upload_data_inv (c : Conn) (w : World) (s : Sys) (data : String)
    (hp : PathLike) (fname : String) (k : Bool) (hInv : TunnelImpliesClient s) :
    TunnelImpliesClient (upload_data c w s data hp fname k).1 := by
  have h1 := send_fileobject_inv c w (s.log (uploadingDataMsg (jsonName fname) c.host))
    (json_dumps data) (PathLike.path ((pathtype_check hp).join (jsonName fname)))
    ((TIC_log s _).mpr hInv)
  rcases hres : send_fileobject c w (s.log (uploadingDataMsg (jsonName fname) c.host))
      (json_dumps data) (PathLike.path ((pathtype_check hp).join (jsonName fname))) with ⟨s2, r2⟩
  rw [hres] at h1
  rcases r2 with e | v <;> cases k <;>
    simp only [upload_data, hres] <;>
    first
    | exact (TIC_log _ _).mpr ((TIC_log _ _).mpr h1)
    | exact (TIC_log _ _).mpr h1
    | exact close_ssh_inv _ ((TIC_log _ _).mpr ((TIC_log _ _).mpr h1))
    | exact close_ssh_inv _ ((TIC_log _ _).mpr h1)

/-- `upload_file` preserves the nesting invariant. -/
theorem upload_file_inv (c : Conn) (w : World) (s : Sys) (fp hp : PathLike) (k : Bool)
    (hInv : TunnelImpliesClient s) : TunnelImpliesClient (upload_file c w s fp hp k).1 := by
  have h1 := send_inv c w
    (s.log (uploadingFileMsg (resolved_fname (pathtype_check fp) (pathtype_check hp)) c.host))
    (PathLike.path (pathtype_check fp))
    (PathLike.path (resolved_dest (pathtype_check fp) (pathtype_check hp)))
    ((TIC_log s _).mpr hInv)
  rcases hres : send c w
      (s.log (uploadingFileMsg (resolved_fname (pathtype_check fp) (pathtype_check hp)) c.host))
      (PathLike.path (pathtype_check fp))
      (PathLike.path (resolved_dest (pathtype_check fp) (pathtype_check hp))) with ⟨s2, r2⟩
  rw [hres] at h1
  rcases r2 with e | v <;> cases k <;>
    simp only [upload_file, hres] <;>
    first
    | exact (TIC_log _ _).mpr ((TIC_log _ _).mpr h1)
    | exact (TIC_log _ _).mpr h1
    | exact close_ssh_inv _ ((TIC_log _ _).mpr ((TIC_log _ _).mpr h1))
    | exact close_ssh_inv _ ((TIC_log _ _).mpr h1)

/-- `dispatch_command` preserves the nesting invariant. -/
theorem dispatch_command_inv (c : Conn) (w : World) (s : Sys) (pp : PPath)
    (co : Option String) (a : Option (List String)) (pc : String)
    (hInv : TunnelImpliesClient s) :
    TunnelImpliesClient (dispatch_command c w s pp co a pc).1 := by
  rcases hc : s.client with _ | cl
  · simpa [dispatch_command, hc, TunnelImpliesClient] using hInv
  · by_cases hl : (s.clientLive && w.execOk) = true <;>
      simp [dispatch_command, hc, hl, TunnelImpliesClient]

/-- `run_python_script` preserves the nesting invariant. -/
theorem run_python_script_inv (c : Conn) (w : World) (s : Sys) (p : PathLike)
    (co : Option String) (a : Option (List String)) (lp : Option PathLike) (pc : String)
    (hInv : TunnelImpliesClient s) :
    TunnelImpliesClient (run_python_script c w s p co a lp pc).1 := by
  rcases lp with _ | lpath
  · rcases hres : connect_ssh c w s with ⟨s1, r1⟩
    have hcs := connect_ssh_inv c w s
    rw [hres] at hcs
    rcases r1 with e | v
    · simp only [run_python_script, hres]
      exact hcs
    · simp only [run_python_script, hres]
      exact dispatch_command_inv c w s1 _ co a pc hcs
  · have h1 := upload_file_inv c w s (.path (pathtype_check lpath))
      (.path (script_dest (pathtype_check p) (pathtype_check lpath))) false hInv
    have h2 := close_sftp_inv _ h1
    simp only [run_python_script]
    exact dispatch_command_inv c w _ _ co a pc h2


/-- Each public operation preserves the nesting invariant. -/
theorem step_inv (a b : Sys) (hstep : Step a b) (hInv : TunnelImpliesClient a) :
    TunnelImpliesClient b := by
  cases hstep
  · exact connect_ssh_inv _ _ _
  · exact connect_sftp_inv _ _ _ _
  · exact send_inv _ _ _ _ _ hInv
  · exact send_fileobject_inv _ _ _ _ _ hInv
  · exact get_inv _ _ _ _ _ hInv
  · exact close_sftp_inv _ hInv
  · exact close_ssh_inv _ hInv
  · exact upload_data_inv _ _ _ _ _ _ _ hInv
  · exact upload_file_inv _ _ _ _ _ _ hInv
  · exact run_python_script_inv _ _ _ _ _ _ _ _ hInv

/-- Every state reachable by public operations from a fresh instance
satisfies the nesting invariant. -/
theorem reachable_inv (s : Sys) (h : Reachable s) : TunnelImpliesClient s := by
  induction h with
  | refl => intro hx; simp [Sys.init] at hx
  | tail hr hstep ih => exact step_inv _ _ hstep ih

/-- On a clientless state, `connect_ssh` makes exactly one key-based dial
attempt, whatever the outcome. -/
theorem connect_ssh_keyDials (c : Conn) (w : World) (s : Sys) (hc : s.client = none) :
    keyDials (connect_ssh c w s).1 = keyDials s + 1 := by
  rcases hk : w.keyConnectResult with _ | e
  · simp [connect_ssh, hc, hk, keyDials, List.countP_append]
  · rcases e <;> by_cases hy : w.passwordAnswer = "y" <;>
      rcases hp : w.passwordConnectResult with _ | e2 <;>
      simp [connect_ssh, hc, hk, hy, hp, keyDials, List.countP_append]

/-- On a clientless state, `connect_sftp` first establishes the session:
exactly one key-based dial attempt is made, whatever the outcome. -/
theorem connect_sftp_keyDials (c : Conn) (w : World) (s : Sys) (hp : Option String)
    (hc : s.client = none) : keyDials (connect_sftp c w s hp).1 = keyDials s + 1 := by
  have h1 := connect_ssh_keyDials c w s hc
  rcases hres : connect_ssh c w s with ⟨s1, r1⟩
  rw [hres] at h1
  rcases r1 with e | v
  · simp [connect_sftp, hc, hres, Except.map, h1]
  · by_cases hl : s1.clientLive = true
    · rcases hp with _ | p
      · simpa [connect_sftp, hc, hres, Except.map, hl, keyDials, List.countP_append]
          using h1
      · by_cases hpe : p = ""
        · simpa [connect_sftp, hc, hres, Except.map, hl, hpe, keyDials, List.countP_append]
            using h1
        · rcases hcd : w.chdirResult with _ | e2
          · simpa [connect_sftp, hc, hres, Except.map, hl, hpe, hcd, keyDials,
              List.countP_append] using h1
          · rcases e2 <;>
              simpa [connect_sftp, hc, hres, Except.map, hl, hpe, hcd, keyDials,
                List.countP_append] using h1
    · simpa [connect_sftp, hc, hres, Except.map, hl] using h1

/-- Cascading close on a state holding both handles: the tunnel channel is
closed first, then the client, and both handles are cleared. -/
theorem close_ssh_both (s : Sys) (cl t : Nat) (hcl : s.client = some cl)
    (htun : s.tunnel = some t) :
    close_ssh s =
      ({ s with
          client := none, clientLive := false, tunnel := none,
          events := s.events ++ [Event.closeTunnel, Event.closeClient] }, true) := by
  simp [close_ssh, close_sftp, hcl, htun, Sys.push]

/-- Close on a clientless state only logs that nothing is connected and still
reports success. -/
theorem close_ssh_noop (s : Sys) (hcl : s.client = none) :
    close_ssh s = (s.log "No SSH client connected.", true) := by
  simp [close_ssh, hcl]

/-- Claim C5: in every state reachable by public operations, a stored
Transfer Tunnel handle implies a stored parent client handle; opening the
tunnel on a clientless state first dials the session; on a state holding both
handles, `close_ssh` closes the tunnel first and then the connection, leaving
both handles cleared and returning True; and a repeated `close_ssh` on a
clientless state is a no-op that only logs and raises no error. -/
theorem C5_nesting_and_cascading_close :
    (∀ s, Reachable s → TunnelImpliesClient s) ∧
    (∀ c w s hp, s.client = none → keyDials (connect_sftp c w s hp).1 = keyDials s + 1) ∧
    (∀ s cl t, s.client = some cl → s.tunnel = some t →
      close_ssh s =
        ({ s with
            client := none, clientLive := false, tunnel := none,
            events := s.events ++ [Event.closeTunnel, Event.closeClient] }, true)) ∧
    (∀ s, s.client = none → close_ssh s = (s.log "No SSH client connected.", true)) :=
  ⟨reachable_inv,
   fun c w s hp hc => connect_sftp_keyDials c w s hp hc,
   fun s cl t hcl htun => close_ssh_both s cl t hcl htun,
   fun s hcl => close_ssh_noop s hcl⟩

/-- Claim C5, witness: the fresh state is reachable and satisfies the
invariant; opening the tunnel from fresh dials once; cascading close on a
state with both handles clears both; closing the fresh (clientless) state is
the logged no-op. -/
theorem C5_witness :
    TunnelImpliesClient Sys.init ∧
    keyDials (connect_sftp c0 w0 Sys.init none).1 = keyDials Sys.init + 1 ∧
    close_ssh
        { client := some 0, clientLive := true, tunnel := some 1, nextId := 2,
          events := [], logs := [] } =
      ({ client := none, clientLive := false, tunnel := none, nextId := 2,
         events := [Event.closeTunnel, Event.closeClient], logs := [] }, true) ∧
    close_ssh Sys.init = (Sys.init.log "No SSH client connected.", true) :=
  ⟨C5_nesting_and_cascading_close.1 Sys.init Relation.ReflTransGen.refl,
   C5_nesting_and_cascading_close.2.1 c0 w0 Sys.init none rfl,
   C5_nesting_and_cascading_close.2.2.1
     { client := some 0, clientLive := true, tunnel := some 1, nextId := 2,
       events := [], logs := [] } 0 1 rfl rfl,
   C5_nesting_and_cascading_close.2.2.2 Sys.init rfl⟩

end Pystanssh
